import Mathlib

/-!
# Verification of the oxy-api device-session authentication subsystem

Shallow embedding of the session/token code of the repository:

* `src/src/controllers/secureSession.controller.ts` — legacy secure-session
  controller (single `JWT_SECRET`, always-create login).
* `src/unnamed/part_011` (middle document) — canonical secure-session
  controller (`ACCESS_TOKEN_SECRET` / `REFRESH_TOKEN_SECRET`, reuse-or-create
  login, device operations).
* `src/unnamed/part_014` — `sessionUtils` (generateSessionTokens,
  validateAccessToken, validateRefreshToken, ...).
* `src/unnamed/part_016` — `deviceUtils` (generateDeviceFingerprint, ...).
* `src/src/middleware/auth.ts` — `extractUserIdFromToken`.
* `src/src/routes/auth.ts` — plain-JWT `generateTokens`.
* `src/unnamed/part_005` — the canonical `Session` mongoose model.

JSON-web-tokens are embedded as records carrying their payload, the secret
they were signed with and their absolute expiry; `jwt.verify(t, secret)`
succeeds exactly when the token was signed with `secret` and is unexpired.
Timestamps are `Nat` milliseconds.  Mongo `_id`s are `Nat`; the freshness of
a newly inserted id is modelled by taking the successor of the maximum id in
the store.  The session store is a `List Session`; `findOne` is `List.find?`.
-/

/-- JWT payload as used across the repository's minting sites: the union of
the fields `id`, `userId`, `sessionId`, `deviceId`, `username`, `type`;
fields a given site does not set are `none` (absent in the JSON object). -/
structure TokenPayload where
  id : Option String
  userId : Option String
  sessionId : Option String
  deviceId : Option String
  username : Option String
  tokenType : Option String
  deriving DecidableEq, Repr

/-- A signed JWT: payload, the secret it was signed with, absolute expiry
(`iat + expiresIn`). -/
structure Jwt where
  payload : TokenPayload
  secret : String
  exp : Nat
  deriving DecidableEq, Repr

/-- `jwt.sign(payload, secret, { expiresIn: ttl })` at time `now`. -/
def jwtSign (payload : TokenPayload) (secret : String) (now ttl : Nat) : Jwt :=
  { payload := payload, secret := secret, exp := now + ttl }

/-- `jwt.verify(token, secret)` at time `now`: succeeds (returning the decoded
payload) iff the token was signed with `secret` and has not expired. -/
def jwtVerify (t : Jwt) (secret : String) (now : Nat) : Option TokenPayload :=
  if t.secret = secret ∧ now < t.exp then some t.payload else none

/-- `'1h'` in milliseconds (`ACCESS_TOKEN_EXPIRES_IN` of the controllers). -/
def ACCESS_TTL : Nat := 60 * 60 * 1000

/-- `'15m'` in milliseconds (`ACCESS_TOKEN_EXPIRES_IN` of sessionUtils). -/
def ACCESS_TTL_15M : Nat := 15 * 60 * 1000

/-- `'7d'` in milliseconds (`REFRESH_TOKEN_EXPIRES_IN`). -/
def REFRESH_TTL : Nat := 7 * 24 * 60 * 60 * 1000

/-- `generateTokens` of `src/src/controllers/secureSession.controller.ts`
(lines 19–37): payload `{ userId, sessionId, type: 'access' }` (no `id`
field), access and refresh tokens both signed with the single `JWT_SECRET`;
the refresh token's payload has `type: 'refresh'`. -/
def legacyGenerateTokens (jwtSecret userId sessionId : String) (now : Nat) :
    Jwt × Jwt :=
  let payload : TokenPayload :=
    { id := none, userId := some userId, sessionId := some sessionId,
      deviceId := none, username := none, tokenType := some "access" }
  ( jwtSign payload jwtSecret now ACCESS_TTL,
    jwtSign { payload with tokenType := some "refresh" } jwtSecret now REFRESH_TTL )

/-- `generateTokens` of the canonical controller (`src/unnamed/part_011`,
lines 159–187): access payload `{ id, userId, sessionId }` signed with
`ACCESS_TOKEN_SECRET`, refresh payload `{ id, userId, sessionId,
type: 'refresh' }` signed with `REFRESH_TOKEN_SECRET`. -/
def generateTokens (accessSecret refreshSecret userId sessionId : String)
    (now : Nat) : Jwt × Jwt :=
  let accessPayload : TokenPayload :=
    { id := some userId, userId := some userId, sessionId := some sessionId,
      deviceId := none, username := none, tokenType := none }
  let refreshPayload : TokenPayload :=
    { accessPayload with tokenType := some "refresh" }
  ( jwtSign accessPayload accessSecret now ACCESS_TTL,
    jwtSign refreshPayload refreshSecret now REFRESH_TTL )

/-- `generateSessionTokens` of `src/unnamed/part_014` (lines 27–46): payload
`{ userId, sessionId, deviceId, type: 'access' }` (no `id` field), access
token signed with `ACCESS_TOKEN_SECRET` (15m), refresh token with
`REFRESH_TOKEN_SECRET` (7d) and `type: 'refresh'`. -/
def generateSessionTokens (accessSecret refreshSecret userId sessionId deviceId : String)
    (now : Nat) : Jwt × Jwt :=
  let payload : TokenPayload :=
    { id := none, userId := some userId, sessionId := some sessionId,
      deviceId := some deviceId, username := none, tokenType := some "access" }
  ( jwtSign payload accessSecret now ACCESS_TTL_15M,
    jwtSign { payload with tokenType := some "refresh" } refreshSecret now REFRESH_TTL )

/-- `generateTokens` of `src/src/routes/auth.ts` (lines 17–50): payload
`{ id, userId, username }`, access token signed with `ACCESS_TOKEN_SECRET`
(1h), refresh token signed with `REFRESH_TOKEN_SECRET` (7d), same payload. -/
def authRoutesGenerateTokens (accessSecret refreshSecret userId username : String)
    (now : Nat) : Jwt × Jwt :=
  let tokenPayload : TokenPayload :=
    { id := some userId, userId := some userId, sessionId := none,
      deviceId := none, username := some username, tokenType := none }
  ( jwtSign tokenPayload accessSecret now ACCESS_TTL,
    jwtSign tokenPayload refreshSecret now REFRESH_TTL )

/-- `validateAccessToken` of `src/unnamed/part_014` (lines 53–60):
`jwt.verify(token, ACCESS_TOKEN_SECRET)`, `null` on any failure. -/
def validateAccessToken (accessSecret : String) (t : Jwt) (now : Nat) :
    Option TokenPayload :=
  jwtVerify t accessSecret now

/-- `validateRefreshToken` of `src/unnamed/part_014` (lines 67–74):
`jwt.verify(token, REFRESH_TOKEN_SECRET)`, `null` on any failure. -/
def validateRefreshToken (refreshSecret : String) (t : Jwt) (now : Nat) :
    Option TokenPayload :=
  jwtVerify t refreshSecret now

/-- `extractUserIdFromToken` of `src/src/middleware/auth.ts` (lines 31–39):
verifies the token against `ACCESS_TOKEN_SECRET` and returns
`decoded.id || null` (so an absent or empty `id` field yields `null`). -/
def extractUserIdFromToken (accessSecret : String) (t : Jwt) (now : Nat) :
    Option String :=
  match jwtVerify t accessSecret now with
  | none => none
  | some p =>
      match p.id with
      | none => none
      | some s => if s = "" then none else some s

/-! ## Device fingerprinting (`src/unnamed/part_016`, deviceUtils) -/

/-- The optional `screen` member of a `DeviceFingerprint` payload. -/
structure Screen where
  width : Nat
  height : Nat
  colorDepth : Nat
  deriving DecidableEq, Repr

/-- The `DeviceFingerprint` interface of deviceUtils (lines 6–17): optional
members are `Option`; `ipAddress` is part of the payload but deliberately
not hashed. -/
structure DeviceFingerprint where
  userAgent : String
  platform : String
  language : Option String
  timezone : Option String
  screen : Option Screen
  ipAddress : String
  deriving DecidableEq, Repr

/-- The `fingerprintString` built in `generateDeviceFingerprint` (deviceUtils
lines 36–47): the five signals (absent optional members and empty strings
dropped by `.filter(Boolean)`) joined with `'|'`; the screen descriptor is
`width + 'x' + height + 'x' + colorDepth`; `ipAddress` is not included. -/
def fingerprintString (fp : DeviceFingerprint) : String :=
  let screenComponent : String :=
    match fp.screen with
    | some s => toString s.width ++ "x" ++ toString s.height ++ "x" ++ toString s.colorDepth
    | none => ""
  let components : List String :=
    [some fp.userAgent, some fp.platform, fp.language, fp.timezone,
     some screenComponent].filterMap id
  String.intercalate "|" (components.filter (fun c => c ≠ ""))

/-- `generateDeviceFingerprint` (deviceUtils lines 36–47):
`crypto.createHash('sha256').update(fingerprintString).digest('hex')`.
The SHA-256 digest is an external `node:crypto` primitive, embedded as an
arbitrary function `sha256hex` of the hashed string; every property proved
below holds for every such function, in particular for SHA-256. -/
def generateDeviceFingerprint (sha256hex : String → String)
    (fp : DeviceFingerprint) : String :=
  sha256hex (fingerprintString fp)

/-! ## The Session model (`src/unnamed/part_005`) and the store -/

/-- The nested `deviceInfo` subdocument of the canonical Session model
(`src/unnamed/part_005`, lines 38–49).  Optional schema fields are plain
strings here (`""` standing for an absent value, as the controllers only
copy them around); `lastActive` is a timestamp. -/
structure SessionDeviceInfo where
  deviceName : String
  deviceType : String
  platform : String
  browser : String
  os : String
  lastActive : Nat
  ipAddress : String
  userAgent : String
  location : String
  fingerprint : String
  deriving DecidableEq, Repr

/-- A session row of the canonical Session model (`src/unnamed/part_005`):
Mongo `_id` is `sessionId : Nat`, plus `userId`, top-level `deviceId`,
`deviceInfo`, the stored `accessToken`/`refreshToken`, `isActive`,
`expiresAt`, `lastRefresh` and the `loggedOutAt` mark written by the logout
endpoints. -/
structure Session where
  sessionId : Nat
  userId : String
  deviceId : String
  deviceInfo : SessionDeviceInfo
  accessToken : Jwt
  refreshToken : Jwt
  isActive : Bool
  expiresAt : Nat
  lastRefresh : Nat
  loggedOutAt : Option Nat
  deriving DecidableEq, Repr

/-- The session collection. -/
abbrev Store := List Session

/-- `SESSION_EXPIRES_IN`: 7 days in milliseconds. -/
def SESSION_TTL : Nat := 7 * 24 * 60 * 60 * 1000

/-- Largest `_id` present in the store (0 for the empty store). -/
def maxSessionId (store : Store) : Nat :=
  (store.map Session.sessionId).foldr max 0

/-- A fresh Mongo `_id` for an inserted document: distinct from every id
already in the store. -/
def freshSessionId (store : Store) : Nat :=
  maxSessionId store + 1

/-- `Session.findOne({ _id: sid, isActive: true, expiresAt: { $gt: now } })`
— the expiry-filtered lookup used by `getUserBySession`,
`getTokenBySession` and `validateSession`. -/
def findActiveUnexpired (store : Store) (sid : Nat) (now : Nat) : Option Session :=
  store.find? (fun s => s.sessionId == sid && s.isActive && decide (now < s.expiresAt))

/-- `Session.findOne({ _id: sid, isActive: true })` — the lookup used to
authenticate the caller in `getUserSessions`, `logoutSession`,
`logoutAllSessions`, `getDeviceSessions`, `logoutAllDeviceSessions` and
`updateDeviceName`: it does not filter on `expiresAt`. -/
def findActive (store : Store) (sid : Nat) : Option Session :=
  store.find? (fun s => s.sessionId == sid && s.isActive)

/-- The row predicate of `secureLogin`'s reuse lookup: same user, same
device, active, unexpired. -/
def loginPred (userId deviceId : String) (now : Nat) (s : Session) : Bool :=
  s.userId == userId && s.deviceId == deviceId && s.isActive
    && decide (now < s.expiresAt)

/-- `Session.findOne({ userId, deviceId, isActive: true,
expiresAt: { $gt: now } })` — the reuse lookup of `secureLogin`
(`src/unnamed/part_011`, lines 234–239). -/
def findActiveByUserAndDevice (store : Store) (userId deviceId : String)
    (now : Nat) : Option Session :=
  store.find? (loginPred userId deviceId now)

/-- Apply `f` to a row exactly when it carries the given `_id`. -/
def updateRowFn (sid : Nat) (f : Session → Session) (s : Session) : Session :=
  if s.sessionId == sid then f s else s

/-- Saving a mutated document: replace the row carrying the given `_id`. -/
def updateRow (store : Store) (sid : Nat) (f : Session → Session) : Store :=
  store.map (updateRowFn sid f)

/-! ## The canonical secure-session controller (`src/unnamed/part_011`) -/

/-- The login response body (`SessionAuthResponse` as far as the claims
need it): the returned `sessionId`, resolved `deviceId` and `expiresAt`. -/
structure LoginResult where
  sessionId : Nat
  deviceId : String
  expiresAt : Nat
  deriving DecidableEq, Repr

/-- The resolved device information handed to `secureLogin` (the result of
`extractDeviceInfo` / `registerDevice`): its `deviceId` is the resolved
device id (reused from a matching fingerprint when one was found). -/
structure ResolvedDevice where
  deviceId : String
  deviceName : String
  deviceType : String
  platform : String
  browser : String
  os : String
  ipAddress : String
  userAgent : String
  location : String
  fingerprint : String
  deriving DecidableEq, Repr

/-- The in-place mutation of the reused row in `secureLogin`
(`src/unnamed/part_011`, lines 243–258): bump `deviceInfo.lastActive`,
extend `expiresAt` by 7 days, overwrite `deviceName` when a non-empty one
was supplied (`deviceName = some ""` does not overwrite, matching the JS
truthiness test `if (deviceName)`), and overwrite `ipAddress` /
`userAgent` from the freshly resolved device info. -/
def loginReuseUpdate (dinfo : ResolvedDevice) (deviceName : Option String)
    (now : Nat) (s : Session) : Session :=
  { s with
    expiresAt := now + SESSION_TTL,
    deviceInfo :=
      { s.deviceInfo with
        lastActive := now,
        deviceName :=
          match deviceName with
          | some n => if n = "" then s.deviceInfo.deviceName else n
          | none => s.deviceInfo.deviceName,
        ipAddress := dinfo.ipAddress,
        userAgent := dinfo.userAgent } }

/-- The fresh row inserted by `secureLogin`'s create branch
(`src/unnamed/part_011`, lines 261–293). -/
def newLoginSession (accessSecret refreshSecret : String) (store : Store)
    (userId : String) (dinfo : ResolvedDevice) (now : Nat) : Session :=
  let sid := freshSessionId store
  let toks := generateTokens accessSecret refreshSecret userId (toString sid) now
  { sessionId := sid,
    userId := userId,
    deviceId := dinfo.deviceId,
    deviceInfo :=
      { deviceName := dinfo.deviceName, deviceType := dinfo.deviceType,
        platform := dinfo.platform, browser := dinfo.browser,
        os := dinfo.os, ipAddress := dinfo.ipAddress,
        userAgent := dinfo.userAgent, location := dinfo.location,
        fingerprint := dinfo.fingerprint, lastActive := now },
    accessToken := toks.1,
    refreshToken := toks.2,
    isActive := true,
    expiresAt := now + SESSION_TTL,
    lastRefresh := now,
    loggedOutAt := none }

/-- `SecureSessionController.secureLogin` (`src/unnamed/part_011`, lines
192–312), after credentials are verified and the device resolved: look up an
active unexpired session for `(userId, resolvedDeviceId)`; if found, mutate
it in place via `loginReuseUpdate` and return that row's id (**reuse**);
otherwise insert `newLoginSession` with newly minted tokens (**create**). -/
def secureLogin (accessSecret refreshSecret : String) (store : Store)
    (userId : String) (dinfo : ResolvedDevice) (deviceName : Option String)
    (now : Nat) : LoginResult × Store :=
  match findActiveByUserAndDevice store userId dinfo.deviceId now with
  | some existing =>
      ( { sessionId := existing.sessionId, deviceId := dinfo.deviceId,
          expiresAt := now + SESSION_TTL },
        updateRow store existing.sessionId (loginReuseUpdate dinfo deviceName now) )
  | none =>
      ( { sessionId := freshSessionId store, deviceId := dinfo.deviceId,
          expiresAt := now + SESSION_TTL },
        store ++ [newLoginSession accessSecret refreshSecret store userId dinfo now] )

/-- `SecureSessionController.getUserBySession` (`src/unnamed/part_011`, lines
315–350): expiry-filtered lookup; on success bump `deviceInfo.lastActive`
and return the owning `userId`. -/
def getUserBySession (store : Store) (sid : Nat) (now : Nat) :
    Option String × Store :=
  match findActiveUnexpired store sid now with
  | none => (none, store)
  | some session =>
      ( some session.userId,
        updateRow store sid (fun s =>
          { s with deviceInfo := { s.deviceInfo with lastActive := now } }) )

/-- `SecureSessionController.getTokenBySession` (`src/unnamed/part_011`,
lines 353–425): expiry-filtered lookup; if the stored access token still
verifies against `ACCESS_TOKEN_SECRET`, bump `lastActive` and return it
unchanged; otherwise mint a fresh access token for the same session id via
`generateTokens`, store it on the row, bump `lastActive` and return it.
(The controller's inner `catch (refreshError)` branch only fires if
`jwt.sign` itself throws, which it does not; it has no counterpart here.) -/
def getTokenBySession (accessSecret refreshSecret : String) (store : Store)
    (sid : Nat) (now : Nat) : Option Jwt × Store :=
  match findActiveUnexpired store sid now with
  | none => (none, store)
  | some session =>
      match jwtVerify session.accessToken accessSecret now with
      | some _ =>
          ( some session.accessToken,
            updateRow store sid (fun s =>
              { s with deviceInfo := { s.deviceInfo with lastActive := now } }) )
      | none =>
          let newAccess :=
            (generateTokens accessSecret refreshSecret session.userId (toString sid) now).1
          ( some newAccess,
            updateRow store sid (fun s =>
              { s with
                accessToken := newAccess,
                deviceInfo := { s.deviceInfo with lastActive := now } }) )

/-- One entry of the list returned by `getUserSessions` (`ClientSession` of
`src/src/types/secureSession.ts` as populated by the controller). -/
structure ClientSession where
  sessionId : Nat
  deviceId : String
  deviceName : String
  isActive : Bool
  deriving DecidableEq, Repr

/-- `SecureSessionController.getUserSessions` (`src/unnamed/part_011`, lines
428–465): authenticate the caller with the `isActive`-only lookup, then list
the user's active unexpired rows; each entry's `isActive` field is the
comparison `session._id === sessionId`, and `deviceName` falls back to
`'Unknown Device'` when falsy.  The store is not modified. -/
def getUserSessions (store : Store) (sid : Nat) (now : Nat) :
    Option (List ClientSession) × Store :=
  match findActive store sid with
  | none => (none, store)
  | some currentSession =>
      let sessions := store.filter (fun s =>
        s.userId == currentSession.userId && s.isActive && decide (now < s.expiresAt))
      ( some (sessions.map (fun s =>
          { sessionId := s.sessionId,
            deviceId := s.deviceId,
            deviceName := if s.deviceInfo.deviceName = "" then "Unknown Device"
                          else s.deviceInfo.deviceName,
            isActive := s.sessionId == sid })),
        store )

/-- `SecureSessionController.logoutSession` (`src/unnamed/part_011`, lines
468–506): authenticate the caller (`isActive`-only lookup), then
`updateOne({ _id: targetId, userId: currentSession.userId },
{ isActive: false, loggedOutAt: now })` where `targetId` defaults to the
caller's own session id. -/
def logoutSession (store : Store) (sid : Nat) (targetSessionId : Option Nat)
    (now : Nat) : Option Unit × Store :=
  match findActive store sid with
  | none => (none, store)
  | some currentSession =>
      let targetId := targetSessionId.getD sid
      ( some (),
        store.map (fun s =>
          if s.sessionId == targetId && s.userId == currentSession.userId then
            { s with isActive := false, loggedOutAt := some now }
          else s) )

/-- `SecureSessionController.logoutAllSessions` (`src/unnamed/part_011`,
lines 509–544): authenticate the caller (`isActive`-only lookup), then
`updateMany({ userId: currentSession.userId, isActive: true },
{ isActive: false, loggedOutAt: now })` — the caller's own row included. -/
def logoutAllSessions (store : Store) (sid : Nat) (now : Nat) :
    Option Unit × Store :=
  match findActive store sid with
  | none => (none, store)
  | some currentSession =>
      ( some (),
        store.map (fun s =>
          if s.userId == currentSession.userId && s.isActive then
            { s with isActive := false, loggedOutAt := some now }
          else s) )

/-- The success body of `validateSession`. -/
structure ValidateResult where
  expiresAt : Nat
  lastActivity : Nat
  userId : String
  deriving DecidableEq, Repr

/-- `SecureSessionController.validateSession` (`src/unnamed/part_011`, lines
547–595): session id from the `x-session-id` header, falling back to the URL
parameter; expiry-filtered lookup; on success bump `lastActive` and return
`{ valid: true, expiresAt, lastActivity, user }`. -/
def validateSession (store : Store) (headerSid paramSid : Option Nat)
    (now : Nat) : Option ValidateResult × Store :=
  match headerSid.orElse (fun _ => paramSid) with
  | none => (none, store)
  | some sid =>
      match findActiveUnexpired store sid now with
      | none => (none, store)
      | some session =>
          ( some { expiresAt := session.expiresAt, lastActivity := now,
                   userId := session.userId },
            updateRow store sid (fun s =>
              { s with deviceInfo := { s.deviceInfo with lastActive := now } }) )

/-- `getDeviceActiveSessions` of deviceUtils (`src/unnamed/part_016`, lines
147–167): all active unexpired rows for a device. -/
def getDeviceActiveSessions (store : Store) (deviceId : String) (now : Nat) :
    List Session :=
  store.filter (fun s => s.deviceId == deviceId && s.isActive
    && decide (now < s.expiresAt))

/-- `SecureSessionController.getDeviceSessions` (`src/unnamed/part_011`,
lines 649–682): authenticate the caller (`isActive`-only lookup), then list
the active unexpired sessions of the queried device (defaulting to the
caller's). -/
def getDeviceSessions (store : Store) (sid : Nat) (deviceIdQuery : Option String)
    (now : Nat) : Option (List Session) × Store :=
  match findActive store sid with
  | none => (none, store)
  | some currentSession =>
      let targetDeviceId := deviceIdQuery.getD currentSession.deviceId
      (some (getDeviceActiveSessions store targetDeviceId now), store)

/-- `logoutAllDeviceSessions` of deviceUtils (`src/unnamed/part_016`, lines
172–196): deactivate every active session of the device, optionally sparing
one session id. -/
def logoutAllDeviceSessionsUtil (store : Store) (deviceId : String)
    (excludeSessionId : Option Nat) (now : Nat) : Store :=
  store.map (fun s =>
    if s.deviceId == deviceId && s.isActive
        && (match excludeSessionId with
            | some ex => !(s.sessionId == ex)
            | none => true) then
      { s with isActive := false, loggedOutAt := some now }
    else s)

/-- `SecureSessionController.logoutAllDeviceSessions` (`src/unnamed/part_011`,
lines 685–720): authenticate the caller (`isActive`-only lookup), then
deactivate all active sessions of the target device (defaulting to the
caller's device), sparing the caller's own session when `excludeCurrent`. -/
def logoutAllDeviceSessions (store : Store) (sid : Nat)
    (deviceId : Option String) (excludeCurrent : Bool) (now : Nat) :
    Option Unit × Store :=
  match findActive store sid with
  | none => (none, store)
  | some currentSession =>
      let targetDeviceId := deviceId.getD currentSession.deviceId
      let excludeSessionId := if excludeCurrent then some sid else none
      (some (), logoutAllDeviceSessionsUtil store targetDeviceId excludeSessionId now)

/-- `SecureSessionController.updateDeviceName` (`src/unnamed/part_011`, lines
723–764): reject an absent/empty name, authenticate the caller
(`isActive`-only lookup), then `updateMany({ deviceId: session.deviceId },
{ $set: { 'deviceInfo.deviceName': deviceName } })` — every row of the
device, with no `isActive` or `expiresAt` filter. -/
def updateDeviceName (store : Store) (sid : Nat) (deviceName : String) :
    Option Unit × Store :=
  if deviceName = "" then (none, store)
  else
    match findActive store sid with
    | none => (none, store)
    | some session =>
        ( some (),
          store.map (fun s =>
            if s.deviceId == session.deviceId then
              { s with deviceInfo := { s.deviceInfo with deviceName := deviceName } }
            else s) )

/-! ## The operations of the subsystem as one step relation (for the
terminality claim) -/

/-- One request against the secure-session subsystem, with its inputs. -/
inductive SessionOp where
  | login (userId : String) (dinfo : ResolvedDevice) (deviceName : Option String)
  | getUser (sid : Nat)
  | getToken (sid : Nat)
  | listSessions (sid : Nat)
  | logout (sid : Nat) (targetSessionId : Option Nat)
  | logoutAll (sid : Nat)
  | validate (headerSid paramSid : Option Nat)
  | deviceSessions (sid : Nat) (deviceIdQuery : Option String)
  | logoutDevice (sid : Nat) (deviceId : Option String) (excludeCurrent : Bool)
  | renameDevice (sid : Nat) (deviceName : String)
  deriving Repr

/-- The store after handling one request. -/
def applyOp (accessSecret refreshSecret : String) (store : Store) (now : Nat) :
    SessionOp → Store
  | .login userId dinfo deviceName =>
      (secureLogin accessSecret refreshSecret store userId dinfo deviceName now).2
  | .getUser sid => (getUserBySession store sid now).2
  | .getToken sid => (getTokenBySession accessSecret refreshSecret store sid now).2
  | .listSessions sid => (getUserSessions store sid now).2
  | .logout sid target => (logoutSession store sid target now).2
  | .logoutAll sid => (logoutAllSessions store sid now).2
  | .validate headerSid paramSid => (validateSession store headerSid paramSid now).2
  | .deviceSessions sid q => (getDeviceSessions store sid q now).2
  | .logoutDevice sid d ex => (logoutAllDeviceSessions store sid d ex now).2
  | .renameDevice sid n => (updateDeviceName store sid n).2

/-! ## Helper lemmas -/

/-- Every id in the store is bounded by `maxSessionId`. -/
theorem sessionId_le_maxSessionId {store : Store} {s : Session} (hs : s ∈ store) :
    s.sessionId ≤ maxSessionId store := by
  induction store with
  | nil => cases hs
  | cons a l ih =>
      simp only [maxSessionId, List.map_cons, List.foldr_cons]
      rcases List.mem_cons.mp hs with h | h
      · subst h; exact Nat.le_max_left _ _
      · exact le_trans (ih h) (Nat.le_max_right _ _)

/-- A freshly inserted id differs from every id already present. -/
theorem freshSessionId_not_mem {store : Store} {s : Session} (hs : s ∈ store) :
    s.sessionId ≠ freshSessionId store := by
  have := sessionId_le_maxSessionId hs
  unfold freshSessionId
  omega

/-- When every row carrying `sid` is inactive, the `isActive`-only lookup
misses. -/
theorem findActive_eq_none {store : Store} {sid : Nat}
    (h : ∀ s ∈ store, s.sessionId = sid → s.isActive = false) :
    findActive store sid = none := by
  refine List.find?_eq_none.mpr (fun s hs => ?_)
  intro hp
  simp only [Bool.and_eq_true, beq_iff_eq] at hp
  have := h s hs hp.1
  simp [hp.2] at this

/-- When every row carrying `sid` is inactive, the expiry-filtered lookup
misses. -/
theorem findActiveUnexpired_eq_none_of_dead {store : Store} {sid now : Nat}
    (h : ∀ s ∈ store, s.sessionId = sid → s.isActive = false) :
    findActiveUnexpired store sid now = none := by
  refine List.find?_eq_none.mpr (fun s hs => ?_)
  intro hp
  simp only [Bool.and_eq_true, beq_iff_eq, decide_eq_true_eq] at hp
  have := h s hs hp.1.1
  simp [hp.1.2] at this

/-- When every row carrying `sid` is already expired, the expiry-filtered
lookup misses. -/
theorem findActiveUnexpired_eq_none_of_expired {store : Store} {sid now : Nat}
    (h : ∀ s ∈ store, s.sessionId = sid → s.expiresAt ≤ now) :
    findActiveUnexpired store sid now = none := by
  refine List.find?_eq_none.mpr (fun s hs => ?_)
  intro hp
  simp only [Bool.and_eq_true, beq_iff_eq, decide_eq_true_eq] at hp
  have := h s hs hp.1.1
  omega

/-- A per-row update that keeps `sessionId` and `isActive` gives an
`updateRowFn` satisfying the guard of `map_preserves_dead`. -/
theorem updateRowFn_ok {f : Session → Session}
    (hid : ∀ s, (f s).sessionId = s.sessionId)
    (hact : ∀ s, (f s).isActive = s.isActive) (sid : Nat) (s : Session) :
    (updateRowFn sid f s).sessionId = s.sessionId
    ∧ ((updateRowFn sid f s).isActive = true → s.isActive = true) := by
  unfold updateRowFn
  split
  · exact ⟨hid s, fun h => (hact s) ▸ h⟩
  · exact ⟨rfl, fun h => h⟩

/-- Mapping a transformation that keeps ids and never activates a row
preserves "every row carrying `sid` is inactive". -/
theorem map_preserves_dead {store : Store} {sid : Nat} {g : Session → Session}
    (hg : ∀ s, (g s).sessionId = s.sessionId ∧ ((g s).isActive = true → s.isActive = true))
    (h : ∀ s ∈ store, s.sessionId = sid → s.isActive = false) :
    ∀ s' ∈ store.map g, s'.sessionId = sid → s'.isActive = false := by
  intro s' hs' hsid
  rcases List.mem_map.mp hs' with ⟨s, hs, rfl⟩
  rcases hg s with ⟨hid, hact⟩
  cases hb : (g s).isActive with
  | false => rfl
  | true =>
      have h1 : s.isActive = true := hact hb
      have h2 : s.isActive = false := h s hs (by rw [← hid]; exact hsid)
      rw [h1] at h2; exact h2

/-! ## Claim C3: token-class separation -/

/-- Claim C3, counterexample.  `generateTokens` of
`src/src/controllers/secureSession.controller.ts` signs both token classes
with the single `JWT_SECRET`, and `getTokenBySession` of that controller
validates access tokens with `jwt.verify(·, JWT_SECRET)`: the freshly minted
refresh token verifies successfully against the very secret used for
access-token validation, so the minted refresh token does not "fail
validation when checked against the access-token secret". -/
theorem C3_counterexample :
    (jwtVerify (legacyGenerateTokens "jwt-secret" "user1" "session1" 0).2
      "jwt-secret" 1).isSome = true := by decide

/-- Claim C3, amended: for the two-secret minting sites
(`generateSessionTokens` of sessionUtils, `generateTokens` of the canonical
controller, `generateTokens` of `routes/auth.ts`), whenever the access and
refresh signing secrets are distinct, the refresh token fails validation
against the access secret and the access token fails validation against the
refresh secret, at every time; the legacy controller's single-`JWT_SECRET`
issuer is excluded. -/
theorem C3_theorem (accessSecret refreshSecret userId sessionId deviceId username : String)
    (hsec : accessSecret ≠ refreshSecret) (now t : Nat) :
    validateAccessToken accessSecret
      (generateSessionTokens accessSecret refreshSecret userId sessionId deviceId now).2 t = none
    ∧ validateRefreshToken refreshSecret
      (generateSessionTokens accessSecret refreshSecret userId sessionId deviceId now).1 t = none
    ∧ jwtVerify (generateTokens accessSecret refreshSecret userId sessionId now).2
        accessSecret t = none
    ∧ jwtVerify (generateTokens accessSecret refreshSecret userId sessionId now).1
        refreshSecret t = none
    ∧ jwtVerify (authRoutesGenerateTokens accessSecret refreshSecret userId username now).2
        accessSecret t = none
    ∧ jwtVerify (authRoutesGenerateTokens accessSecret refreshSecret userId username now).1
        refreshSecret t = none := by
  have h1 : ¬ (refreshSecret = accessSecret) := fun h => hsec h.symm
  have h2 : ¬ (accessSecret = refreshSecret) := hsec
  refine ⟨?_, ?_, ?_, ?_, ?_, ?_⟩ <;>
    simp [validateAccessToken, validateRefreshToken, generateSessionTokens,
      generateTokens, authRoutesGenerateTokens, jwtSign, jwtVerify, h1, h2]

/-- Claim C3 witness: concrete distinct secrets. -/
theorem C3_witness :
    validateAccessToken "acc-secret"
      (generateSessionTokens "acc-secret" "ref-secret" "u1" "s1" "d1" 0).2 1 = none
    ∧ validateRefreshToken "ref-secret"
      (generateSessionTokens "acc-secret" "ref-secret" "u1" "s1" "d1" 0).1 1 = none
    ∧ jwtVerify (generateTokens "acc-secret" "ref-secret" "u1" "s1" 0).2 "acc-secret" 1 = none
    ∧ jwtVerify (generateTokens "acc-secret" "ref-secret" "u1" "s1" 0).1 "ref-secret" 1 = none
    ∧ jwtVerify (authRoutesGenerateTokens "acc-secret" "ref-secret" "u1" "alice" 0).2
        "acc-secret" 1 = none
    ∧ jwtVerify (authRoutesGenerateTokens "acc-secret" "ref-secret" "u1" "alice" 0).1
        "ref-secret" 1 = none :=
  C3_theorem "acc-secret" "ref-secret" "u1" "s1" "d1" "alice" (by decide) 0 1

/-! ## Claim C7: mint-then-extract round trip -/

/-- Claim C7, counterexample.  `generateTokens` of
`src/src/controllers/secureSession.controller.ts` mints the access token
with payload `{ userId, sessionId, type }` — no `id` field — while
`extractUserIdFromToken` of `src/src/middleware/auth.ts` reads `decoded.id`:
extracting the user id from that freshly minted, valid token returns `null`,
not the minted `"user1"`. -/
theorem C7_counterexample :
    extractUserIdFromToken "jwt-secret"
      (legacyGenerateTokens "jwt-secret" "user1" "session1" 0).1 1 = none := by decide

/-- Claim C7, amended: the round trip holds only for the minting sites whose
payload carries the `id` field read by `extractUserIdFromToken` — the
canonical controller's `generateTokens` and `routes/auth.ts`'s
`generateTokens`.  For those, extracting from the fresh unexpired access
token returns exactly the minted (non-empty) userId.  It fails (returns
`null`) for the legacy controller's `generateTokens` and sessionUtils'
`generateSessionTokens`, whose payloads carry the identity only under
`userId`. -/
theorem C7_theorem (accessSecret refreshSecret userId sessionId deviceId username : String)
    (huid : userId ≠ "") (now t : Nat) (ht : t < now + ACCESS_TTL)
    (ht15 : t < now + ACCESS_TTL_15M) :
    extractUserIdFromToken accessSecret
      (generateTokens accessSecret refreshSecret userId sessionId now).1 t = some userId
    ∧ extractUserIdFromToken accessSecret
      (authRoutesGenerateTokens accessSecret refreshSecret userId username now).1 t
        = some userId
    ∧ extractUserIdFromToken accessSecret
      (legacyGenerateTokens accessSecret userId sessionId now).1 t = none
    ∧ extractUserIdFromToken accessSecret
      (generateSessionTokens accessSecret refreshSecret userId sessionId deviceId now).1 t
        = none := by
  refine ⟨?_, ?_, ?_, ?_⟩ <;>
    simp [extractUserIdFromToken, generateTokens, authRoutesGenerateTokens,
      legacyGenerateTokens, generateSessionTokens, jwtSign, jwtVerify, ht, ht15, huid]

/-- Claim C7 witness: concrete userId round trip. -/
theorem C7_witness :
    extractUserIdFromToken "acc-secret"
      (generateTokens "acc-secret" "ref-secret" "user1" "s1" 0).1 1 = some "user1"
    ∧ extractUserIdFromToken "acc-secret"
      (authRoutesGenerateTokens "acc-secret" "ref-secret" "user1" "alice" 0).1 1
        = some "user1"
    ∧ extractUserIdFromToken "acc-secret"
      (legacyGenerateTokens "acc-secret" "user1" "s1" 0).1 1 = none
    ∧ extractUserIdFromToken "acc-secret"
      (generateSessionTokens "acc-secret" "ref-secret" "user1" "s1" "d1" 0).1 1 = none :=
  C7_theorem "acc-secret" "ref-secret" "user1" "s1" "d1" "alice" (by decide) 0 1
    (by decide) (by decide)

/-! ## Claim C8: fingerprint stability and IP-independence -/

/-- Claim C8: `generateDeviceFingerprint` is a function of exactly the
user-agent, platform, language, timezone and screen descriptor — two inputs
agreeing on those five signals (the IP addresses may differ arbitrarily)
hash to byte-identical digests, for every digest function, in particular
for SHA-256. -/
theorem C8_theorem (sha256hex : String → String) (fp1 fp2 : DeviceFingerprint)
    (hua : fp1.userAgent = fp2.userAgent)
    (hpl : fp1.platform = fp2.platform)
    (hla : fp1.language = fp2.language)
    (htz : fp1.timezone = fp2.timezone)
    (hsc : fp1.screen = fp2.screen) :
    generateDeviceFingerprint sha256hex fp1 = generateDeviceFingerprint sha256hex fp2 := by
  obtain ⟨ua1, pl1, la1, tz1, sc1, ip1⟩ := fp1
  obtain ⟨ua2, pl2, la2, tz2, sc2, ip2⟩ := fp2
  dsimp only at hua hpl hla htz hsc
  subst hua; subst hpl; subst hla; subst htz; subst hsc
  rfl

/-- Claim C8 witness: two concrete inputs differing only in `ipAddress`. -/
theorem C8_witness :
    generateDeviceFingerprint (fun s => s)
      ⟨"Mozilla/5.0", "Linux", some "en", some "UTC", some ⟨1920, 1080, 24⟩, "10.0.0.1"⟩
    = generateDeviceFingerprint (fun s => s)
      ⟨"Mozilla/5.0", "Linux", some "en", some "UTC", some ⟨1920, 1080, 24⟩, "192.168.7.7"⟩ :=
  C8_theorem (fun s => s) _ _ rfl rfl rfl rfl rfl

/-! ## Claim C2: revoked sessions are terminal -/

/-- Claim C2: once every row carrying a session id is inactive, (1) no
operation of the subsystem ever flips a row with that id back to
`isActive = true` (every mutation either deactivates rows, touches only
token/metadata fields, or inserts a row under a fresh id), and (2) every
authenticating lookup for that exact id fails — `getUserBySession`,
`getTokenBySession`, `getUserSessions`, `logoutSession`,
`logoutAllSessions`, `validateSession`, `getDeviceSessions`,
`logoutAllDeviceSessions`, `updateDeviceName` all reject it, and a
subsequent login returns a different (reused-active or fresh) session id. -/
theorem C2_theorem (accessSecret refreshSecret : String) (store : Store) (sid now : Nat)
    (hex : ∃ s ∈ store, s.sessionId = sid)
    (hdead : ∀ s ∈ store, s.sessionId = sid → s.isActive = false) :
    (∀ op : SessionOp, ∀ s' ∈ applyOp accessSecret refreshSecret store now op,
        s'.sessionId = sid → s'.isActive = false)
    ∧ (getUserBySession store sid now).1 = none
    ∧ (getTokenBySession accessSecret refreshSecret store sid now).1 = none
    ∧ (getUserSessions store sid now).1 = none
    ∧ (∀ target, (logoutSession store sid target now).1 = none)
    ∧ (logoutAllSessions store sid now).1 = none
    ∧ (∀ paramSid, (validateSession store (some sid) paramSid now).1 = none)
    ∧ (∀ q, (getDeviceSessions store sid q now).1 = none)
    ∧ (∀ d ex, (logoutAllDeviceSessions store sid d ex now).1 = none)
    ∧ (∀ n, (updateDeviceName store sid n).1 = none)
    ∧ (∀ userId dinfo deviceName,
        (secureLogin accessSecret refreshSecret store userId dinfo deviceName now).1.sessionId
          ≠ sid) := by
  have hlax : findActive store sid = none := findActive_eq_none hdead
  have hstrict : findActiveUnexpired store sid now = none :=
    findActiveUnexpired_eq_none_of_dead hdead
  refine ⟨?_, ?_, ?_, ?_, ?_, ?_, ?_, ?_, ?_, ?_, ?_⟩
  · intro op
    cases op with
    | login userId dinfo deviceName =>
        simp only [applyOp, secureLogin]
        cases hfa : findActiveByUserAndDevice store userId dinfo.deviceId now with
        | some existing =>
            simp only [updateRow]
            refine map_preserves_dead
              (updateRowFn_ok (fun s => ?_) (fun s => ?_) _) hdead <;> rfl
        | none =>
            intro s' hs' hsid
            rcases List.mem_append.mp hs' with h | h
            · exact hdead s' h hsid
            · rcases hex with ⟨s0, hs0, hs0id⟩
              have hfresh : s0.sessionId ≠ freshSessionId store := freshSessionId_not_mem hs0
              rcases List.mem_singleton.mp h with rfl
              exact absurd (hs0id.trans hsid.symm) hfresh
    | getUser sid' =>
        simp only [applyOp, getUserBySession]
        cases hfa : findActiveUnexpired store sid' now with
        | none => exact hdead
        | some sess =>
            simp only [updateRow]
            refine map_preserves_dead
              (updateRowFn_ok (fun s => ?_) (fun s => ?_) _) hdead <;> rfl
    | getToken sid' =>
        simp only [applyOp, getTokenBySession]
        split
        · exact hdead
        · split <;>
          · simp only [updateRow]
            refine map_preserves_dead
              (updateRowFn_ok (fun s => ?_) (fun s => ?_) _) hdead <;> rfl
    | listSessions sid' =>
        simp only [applyOp, getUserSessions]
        cases hfa : findActive store sid' <;> exact hdead
    | logout sid' target =>
        simp only [applyOp, logoutSession]
        cases hfa : findActive store sid' with
        | none => exact hdead
        | some cur =>
            refine map_preserves_dead (fun s => ?_) hdead
            by_cases hc : (s.sessionId == target.getD sid' && s.userId == cur.userId) = true <;>
              simp [hc]
    | logoutAll sid' =>
        simp only [applyOp, logoutAllSessions]
        cases hfa : findActive store sid' with
        | none => exact hdead
        | some cur =>
            refine map_preserves_dead (fun s => ?_) hdead
            by_cases hc : (s.userId == cur.userId && s.isActive) = true <;> simp [hc]
    | validate headerSid paramSid =>
        simp only [applyOp, validateSession]
        split
        · exact hdead
        · split
          · exact hdead
          · simp only [updateRow]
            refine map_preserves_dead
              (updateRowFn_ok (fun s => ?_) (fun s => ?_) _) hdead <;> rfl
    | deviceSessions sid' q =>
        simp only [applyOp, getDeviceSessions]
        cases hfa : findActive store sid' <;> exact hdead
    | logoutDevice sid' d ex =>
        simp only [applyOp, logoutAllDeviceSessions]
        cases hfa : findActive store sid' with
        | none => exact hdead
        | some cur =>
            simp only [logoutAllDeviceSessionsUtil]
            refine map_preserves_dead (fun s => ?_) hdead
            by_cases hc : (s.deviceId == d.getD cur.deviceId && s.isActive
                && (match (if ex then some sid' else none) with
                    | some e => !(s.sessionId == e)
                    | none => true)) = true <;> simp [hc]
    | renameDevice sid' n =>
        simp only [applyOp, updateDeviceName]
        by_cases hn : n = ""
        · simp only [hn, if_pos rfl]; exact hdead
        · simp only [if_neg hn]
          cases hfa : findActive store sid' with
          | none => exact hdead
          | some sess =>
              refine map_preserves_dead (fun s => ?_) hdead
              by_cases hc : (s.deviceId == sess.deviceId) = true <;> simp [hc]
  · simp [getUserBySession, hstrict]
  · simp [getTokenBySession, hstrict]
  · simp [getUserSessions, hlax]
  · intro target; simp [logoutSession, hlax]
  · simp [logoutAllSessions, hlax]
  · intro paramSid; simp [validateSession, Option.orElse, hstrict]
  · intro q; simp [getDeviceSessions, hlax]
  · intro d ex; simp [logoutAllDeviceSessions, hlax]
  · intro n
    by_cases hn : n = "" <;> simp [updateDeviceName, hn, hlax]
  · intro userId dinfo deviceName
    simp only [secureLogin]
    cases hfa : findActiveByUserAndDevice store userId dinfo.deviceId now with
    | some existing =>
        have hmem : existing ∈ store := List.mem_of_find?_eq_some hfa
        have hp := List.find?_some hfa
        simp only [loginPred, Bool.and_eq_true, beq_iff_eq, decide_eq_true_eq] at hp
        intro hcontra
        have := hdead existing hmem hcontra
        rw [hp.1.2] at this
        exact Bool.true_eq_false.mp this
    | none =>
        rcases hex with ⟨s0, hs0, hs0id⟩
        have hfresh : s0.sessionId ≠ freshSessionId store := freshSessionId_not_mem hs0
        intro hcontra
        exact hfresh (hs0id.trans hcontra.symm)

/-- A placeholder stored token for the example stores of the witnesses. -/
def exTok : Jwt :=
  { payload := ⟨none, none, none, none, none, none⟩, secret := "k", exp := 0 }

/-- Example device metadata for the witnesses. -/
def exDeviceInfo : SessionDeviceInfo :=
  { deviceName := "Phone", deviceType := "mobile", platform := "ios",
    browser := "Safari", os := "iOS", lastActive := 0, ipAddress := "10.0.0.1",
    userAgent := "UA", location := "", fingerprint := "" }

/-- An already-revoked example row (id 1, owner alice, device devA). -/
def exDeadSession : Session :=
  { sessionId := 1, userId := "alice", deviceId := "devA",
    deviceInfo := exDeviceInfo, accessToken := exTok, refreshToken := exTok,
    isActive := false, expiresAt := 100, lastRefresh := 0, loggedOutAt := some 50 }

/-- Claim C2 witness: a store holding one revoked row; every authenticating
operation rejects its id. -/
theorem C2_witness :
    (getUserBySession [exDeadSession] 1 60).1 = none
    ∧ (getTokenBySession "acc-secret" "ref-secret" [exDeadSession] 1 60).1 = none
    ∧ (getUserSessions [exDeadSession] 1 60).1 = none
    ∧ (logoutAllSessions [exDeadSession] 1 60).1 = none := by
  have h := C2_theorem "acc-secret" "ref-secret" [exDeadSession] 1 60 (by decide) (by decide)
  exact ⟨h.2.1, h.2.2.1, h.2.2.2.1, h.2.2.2.2.2.1⟩

/-! ## Claim C4: expiry as authentication failure -/

/-- An expired but still-active example row (id 1, owner alice). -/
def exExpiredSession : Session :=
  { sessionId := 1, userId := "alice", deviceId := "devA",
    deviceInfo := exDeviceInfo, accessToken := exTok, refreshToken := exTok,
    isActive := true, expiresAt := 100, lastRefresh := 0, loggedOutAt := none }

/-- Claim C4, counterexample.  A session whose `expiresAt` (100) has passed
(now = 200) but whose `isActive` flag is still true successfully
authenticates `getUserSessions`, `logoutSession` and `updateDeviceName`,
because those operations look the caller up with
`findOne({ _id, isActive: true })` and never filter on `expiresAt` — the
claim's "every consumer operation rejects" is false for them. -/
theorem C4_counterexample :
    (getUserSessions [exExpiredSession] 1 200).1.isSome = true
    ∧ (logoutSession [exExpiredSession] 1 (some 1) 200).1.isSome = true
    ∧ (updateDeviceName [exExpiredSession] 1 "Renamed").1.isSome = true := by decide

/-- Claim C4, amended: only the three operations using the expiry-filtered
lookup — `getUserBySession`, `getTokenBySession` and `validateSession` —
treat a session whose `expiresAt` has passed as an authentication failure;
`getUserSessions`, `logoutSession`, `logoutAllSessions`,
`getDeviceSessions`, `logoutAllDeviceSessions` and `updateDeviceName`
authenticate the presented sessionId with only the `isActive` filter, so an
expired-but-still-active row authenticates them successfully. -/
theorem C4_theorem (accessSecret refreshSecret : String) (store : Store) (sid now : Nat)
    (hexp : ∀ s ∈ store, s.sessionId = sid → s.expiresAt ≤ now) :
    (getUserBySession store sid now).1 = none
    ∧ (getTokenBySession accessSecret refreshSecret store sid now).1 = none
    ∧ (∀ paramSid, (validateSession store (some sid) paramSid now).1 = none)
    ∧ ((∃ s ∈ store, s.sessionId = sid ∧ s.isActive = true) →
        (getUserSessions store sid now).1.isSome = true
        ∧ (∀ target, (logoutSession store sid target now).1.isSome = true)
        ∧ (logoutAllSessions store sid now).1.isSome = true
        ∧ (∀ q, (getDeviceSessions store sid q now).1.isSome = true)
        ∧ (∀ d ex, (logoutAllDeviceSessions store sid d ex now).1.isSome = true)
        ∧ (∀ n, n ≠ "" → (updateDeviceName store sid n).1.isSome = true)) := by
  have hstrict : findActiveUnexpired store sid now = none :=
    findActiveUnexpired_eq_none_of_expired hexp
  refine ⟨by simp [getUserBySession, hstrict], by simp [getTokenBySession, hstrict],
    fun paramSid => by simp [validateSession, Option.orElse, hstrict], ?_⟩
  rintro ⟨s0, hs0, hid, hact⟩
  have hlax : (findActive store sid).isSome = true := by
    refine List.find?_isSome.mpr ⟨s0, hs0, ?_⟩
    simp [hid, hact]
  obtain ⟨cur, hcur⟩ := Option.isSome_iff_exists.mp hlax
  refine ⟨?_, ?_, ?_, ?_, ?_, ?_⟩
  · simp [getUserSessions, hcur]
  · intro target; simp [logoutSession, hcur]
  · simp [logoutAllSessions, hcur]
  · intro q; simp [getDeviceSessions, hcur]
  · intro d ex; simp [logoutAllDeviceSessions, hcur]
  · intro n hn; simp [updateDeviceName, hn, hcur]

/-- Claim C4 witness: the expiry-filtered operations reject the expired row
while `getUserSessions` accepts it. -/
theorem C4_witness :
    (getUserBySession [exExpiredSession] 1 200).1 = none
    ∧ (getTokenBySession "acc-secret" "ref-secret" [exExpiredSession] 1 200).1 = none
    ∧ (getUserSessions [exExpiredSession] 1 200).1.isSome = true := by
  have h := C4_theorem "acc-secret" "ref-secret" [exExpiredSession] 1 200 (by decide)
  exact ⟨h.1, h.2.1, (h.2.2.2 (by decide)).1⟩

/-! ## Claim C5: logout-all called twice -/

/-- An active unexpired example row (id 1, owner alice). -/
def exActiveSession : Session :=
  { sessionId := 1, userId := "alice", deviceId := "devA",
    deviceInfo := exDeviceInfo, accessToken := exTok, refreshToken := exTok,
    isActive := true, expiresAt := 1000, lastRefresh := 0, loggedOutAt := none }

/-- Claim C5, counterexample.  `logoutAllSessions` deactivates every active
session of the user including the caller's own row, so a second call with
the same sessionId fails the `findOne({ _id, isActive: true })`
authentication (HTTP 401 "Invalid session") instead of succeeding — the
claim's "the second call does not return an error" is false. -/
theorem C5_counterexample :
    (logoutAllSessions [exActiveSession] 1 5).1 = some ()
    ∧ (logoutAllSessions (logoutAllSessions [exActiveSession] 1 5).2 1 6).1 = none := by
  decide

/-- Claim C5, amended: a first successful `logoutAllSessions` deactivates
all of the user's active sessions including the caller's own, so the second
call with the same sessionId is rejected as an invalid session (401) and
leaves the store unchanged — zero additional sessions are deactivated, but
the endpoint reports an error rather than success. -/
theorem C5_theorem (store : Store) (sid now1 now2 : Nat)
    (hnodup : (store.map Session.sessionId).Nodup)
    (hfirst : (logoutAllSessions store sid now1).1 = some ()) :
    (logoutAllSessions (logoutAllSessions store sid now1).2 sid now2).1 = none
    ∧ (logoutAllSessions (logoutAllSessions store sid now1).2 sid now2).2
        = (logoutAllSessions store sid now1).2 := by
  cases hfa : findActive store sid with
  | none => simp [logoutAllSessions, hfa] at hfirst
  | some cur =>
      have hmem : cur ∈ store := List.mem_of_find?_eq_some hfa
      have hp := List.find?_some hfa
      simp only [Bool.and_eq_true, beq_iff_eq] at hp
      have hnone : findActive (logoutAllSessions store sid now1).2 sid = none := by
        simp only [logoutAllSessions, hfa]
        refine findActive_eq_none ?_
        intro s' hs' hsid
        rcases List.mem_map.mp hs' with ⟨s, hs, rfl⟩
        by_cases hc : (s.userId == cur.userId && s.isActive) = true
        · simp [hc]
        · simp only [Bool.not_eq_true] at hc
          simp only [hc] at hsid ⊢
          have hseq : s = cur :=
            List.inj_on_of_nodup_map hnodup hs hmem (hsid.trans hp.1.symm)
          subst hseq
          rw [hp.2] at hc
          simp at hc
      constructor
      · conv_lhs => rw [logoutAllSessions]
        rw [hnone]
      · conv_lhs => rw [logoutAllSessions]
        rw [hnone]

/-- Claim C5 witness: concrete double logout-all. -/
theorem C5_witness :
    (logoutAllSessions (logoutAllSessions [exActiveSession] 1 5).2 1 6).1 = none
    ∧ (logoutAllSessions (logoutAllSessions [exActiveSession] 1 5).2 1 6).2
        = (logoutAllSessions [exActiveSession] 1 5).2 :=
  C5_theorem [exActiveSession] 1 5 6 (by decide) (by decide)

/-! ## Claim C6: transparent access-token refresh on the same session -/

/-- Claim C6: when `getTokenBySession` finds an active unexpired session
whose stored access token fails validation due to expiry (right secret,
`exp ≤ now`), it returns the access token freshly minted by
`generateTokens` for the same session id, that token carries the same
sessionId in its payload, every row carrying the session id in the
resulting store holds the new token in its `accessToken` field, the row
still exists, and the stores' session ids are unchanged row-for-row. -/
theorem C6_theorem (accessSecret refreshSecret : String) (store : Store)
    (sid now : Nat) (session : Session)
    (hfind : findActiveUnexpired store sid now = some session)
    (hsec : session.accessToken.secret = accessSecret)
    (hexp : session.accessToken.exp ≤ now) :
    (getTokenBySession accessSecret refreshSecret store sid now).1
      = some (generateTokens accessSecret refreshSecret session.userId (toString sid) now).1
    ∧ (generateTokens accessSecret refreshSecret session.userId
        (toString sid) now).1.payload.sessionId = some (toString sid)
    ∧ (∀ s' ∈ (getTokenBySession accessSecret refreshSecret store sid now).2,
        s'.sessionId = sid →
          s'.accessToken
            = (generateTokens accessSecret refreshSecret session.userId (toString sid) now).1)
    ∧ (∃ s' ∈ (getTokenBySession accessSecret refreshSecret store sid now).2,
        s'.sessionId = sid)
    ∧ (getTokenBySession accessSecret refreshSecret store sid now).2.map Session.sessionId
      = store.map Session.sessionId := by
  have hnl : ¬ now < session.accessToken.exp := by omega
  have hv : jwtVerify session.accessToken accessSecret now = none := by
    simp [jwtVerify, hsec, hnl]
  have hmem : session ∈ store := List.mem_of_find?_eq_some hfind
  have hp := List.find?_some hfind
  simp only [Bool.and_eq_true, beq_iff_eq, decide_eq_true_eq] at hp
  simp only [getTokenBySession, hfind, hv, updateRow, updateRowFn]
  refine ⟨trivial, rfl, ?_, ?_, ?_⟩
  · intro s' hs' hsid
    rcases List.mem_map.mp hs' with ⟨s, hs, rfl⟩
    simp only [updateRowFn] at hsid ⊢
    revert hsid
    split
    · intro _; rfl
    · intro hsid
      rename_i hcond
      exact absurd (by simpa using hsid) (by simpa using hcond)
  · refine ⟨_, List.mem_map_of_mem _ hmem, ?_⟩
    simp only [updateRowFn]
    split <;> simpa using hp.1.1
  · rw [List.map_map]
    refine List.map_congr_left (fun s hs => ?_)
    simp only [Function.comp_apply, updateRowFn]
    split <;> rfl

/-- An active unexpired example row whose stored access token is expired
(signed with the access secret, `exp = 10`). -/
def exStaleTokenSession : Session :=
  { sessionId := 1, userId := "alice", deviceId := "devA",
    deviceInfo := exDeviceInfo,
    accessToken := { payload := ⟨none, none, none, none, none, none⟩,
                     secret := "acc-secret", exp := 10 },
    refreshToken := exTok, isActive := true, expiresAt := 1000,
    lastRefresh := 0, loggedOutAt := none }

/-- Claim C6 witness: the stale stored token is replaced by the freshly
minted one, on the same session row. -/
theorem C6_witness :
    (getTokenBySession "acc-secret" "ref-secret" [exStaleTokenSession] 1 500).1
      = some (generateTokens "acc-secret" "ref-secret" "alice" "1" 500).1
    ∧ (generateTokens "acc-secret" "ref-secret" "alice" "1" 500).1.payload.sessionId
      = some "1"
    ∧ (∃ s' ∈ (getTokenBySession "acc-secret" "ref-secret" [exStaleTokenSession] 1 500).2,
        s'.sessionId = 1) := by
  have h := C6_theorem "acc-secret" "ref-secret" [exStaleTokenSession] 1 500
    exStaleTokenSession (by decide) (by decide) (by decide)
  exact ⟨h.1, h.2.1, h.2.2.2.1⟩

/-! ## Claim C9: the `isActive` field of listed sessions -/

/-- Claim C9: in the list returned by `getUserSessions`, every entry's
`isActive` field is true exactly when that entry is the caller's own session
(its id equals the requesting sessionId); every listed entry corresponds to
a stored row that is active and unexpired; and when the caller's own row is
unexpired it appears in the list marked `isActive = true`. -/
theorem C9_theorem (store : Store) (sid now : Nat) (entries : List ClientSession)
    (h : (getUserSessions store sid now).1 = some entries) :
    (∀ e ∈ entries, e.isActive = true ↔ e.sessionId = sid)
    ∧ (∀ e ∈ entries, ∃ s ∈ store,
        s.sessionId = e.sessionId ∧ s.isActive = true ∧ now < s.expiresAt)
    ∧ (∀ cur, findActive store sid = some cur → now < cur.expiresAt →
        ∃ e ∈ entries, e.sessionId = sid ∧ e.isActive = true) := by
  cases hfa : findActive store sid with
  | none => simp [getUserSessions, hfa] at h
  | some cur0 =>
      simp only [getUserSessions, hfa, Option.some.injEq] at h
      subst h
      have hmem0 : cur0 ∈ store := List.mem_of_find?_eq_some hfa
      have hp0 := List.find?_some hfa
      simp only [Bool.and_eq_true, beq_iff_eq] at hp0
      refine ⟨?_, ?_, ?_⟩
      · intro e he
        rcases List.mem_map.mp he with ⟨s, hs, rfl⟩
        simp
      · intro e he
        rcases List.mem_map.mp he with ⟨s, hs, rfl⟩
        rcases List.mem_filter.mp hs with ⟨hsmem, hpred⟩
        simp only [Bool.and_eq_true, beq_iff_eq, decide_eq_true_eq] at hpred
        exact ⟨s, hsmem, rfl, hpred.1.2, hpred.2⟩
      · intro cur hcur hnow
        have hceq : cur0 = cur := Option.some.inj hcur
        subst hceq
        have hfilter : cur0 ∈ store.filter (fun s =>
            s.userId == cur0.userId && s.isActive && decide (now < s.expiresAt)) := by
          refine List.mem_filter.mpr ⟨hmem0, ?_⟩
          simp [hp0.2, hnow]
        refine ⟨_, List.mem_map_of_mem _ hfilter, ?_⟩
        simp [hp0.1]

/-- A second active unexpired row of the same user on another device. -/
def exOtherDeviceSession : Session :=
  { sessionId := 2, userId := "alice", deviceId := "devB",
    deviceInfo := exDeviceInfo, accessToken := exTok, refreshToken := exTok,
    isActive := true, expiresAt := 1000, lastRefresh := 0, loggedOutAt := none }

/-- Claim C9 witness: two active rows, requested from session 1. -/
theorem C9_witness :
    (∀ e ∈ [ClientSession.mk 1 "devA" "Phone" true, ClientSession.mk 2 "devB" "Phone" false],
        e.isActive = true ↔ e.sessionId = 1)
    ∧ (∃ e ∈ [ClientSession.mk 1 "devA" "Phone" true, ClientSession.mk 2 "devB" "Phone" false],
        e.sessionId = 1 ∧ e.isActive = true) := by
  have h := C9_theorem [exActiveSession, exOtherDeviceSession] 1 500
    [ClientSession.mk 1 "devA" "Phone" true, ClientSession.mk 2 "devB" "Phone" false]
    (by decide)
  exact ⟨h.1, h.2.2 exActiveSession (by decide) (by decide)⟩

/-! ## Claim C10: device rename touches every row of the device and only
the name field -/

/-- Claim C10: a successful `updateDeviceName` returns success, keeps the
store's length, and rewrites the rows position-by-position: every row
sharing the caller's `deviceId` — active or not, expired or not — gets
exactly its `deviceInfo.deviceName` replaced by the new name, every other
row is untouched, and no field other than `deviceInfo.deviceName` changes
on any row. -/
theorem C10_theorem (store : Store) (sid : Nat) (deviceName : String) (cur : Session)
    (hname : deviceName ≠ "")
    (hfind : findActive store sid = some cur) :
    (updateDeviceName store sid deviceName).1 = some ()
    ∧ (updateDeviceName store sid deviceName).2.length = store.length
    ∧ (∀ (i : Nat) (s s' : Session), store[i]? = some s →
        (updateDeviceName store sid deviceName).2[i]? = some s' →
        s'.sessionId = s.sessionId
        ∧ s'.userId = s.userId
        ∧ s'.deviceId = s.deviceId
        ∧ s'.accessToken = s.accessToken
        ∧ s'.refreshToken = s.refreshToken
        ∧ s'.isActive = s.isActive
        ∧ s'.expiresAt = s.expiresAt
        ∧ s'.lastRefresh = s.lastRefresh
        ∧ s'.loggedOutAt = s.loggedOutAt
        ∧ s'.deviceInfo.deviceType = s.deviceInfo.deviceType
        ∧ s'.deviceInfo.platform = s.deviceInfo.platform
        ∧ s'.deviceInfo.browser = s.deviceInfo.browser
        ∧ s'.deviceInfo.os = s.deviceInfo.os
        ∧ s'.deviceInfo.lastActive = s.deviceInfo.lastActive
        ∧ s'.deviceInfo.ipAddress = s.deviceInfo.ipAddress
        ∧ s'.deviceInfo.userAgent = s.deviceInfo.userAgent
        ∧ s'.deviceInfo.location = s.deviceInfo.location
        ∧ s'.deviceInfo.fingerprint = s.deviceInfo.fingerprint
        ∧ s'.deviceInfo.deviceName
            = (if s.deviceId == cur.deviceId then deviceName
               else s.deviceInfo.deviceName)) := by
  have hupd : updateDeviceName store sid deviceName
      = (some (), store.map (fun s =>
          if s.deviceId == cur.deviceId then
            { s with deviceInfo := { s.deviceInfo with deviceName := deviceName } }
          else s)) := by
    simp only [updateDeviceName, if_neg hname, hfind]
  rw [hupd]
  refine ⟨rfl, by simp, ?_⟩
  intro i s s' hs hs'
  simp only [List.getElem?_map, hs, Option.map_some'] at hs'
  have hss : _ = s' := Option.some.inj hs'
  subst hss
  by_cases hc : (s.deviceId == cur.deviceId) = true <;> simp [hc]

/-- An inactive expired row on the caller's device. -/
def exDeadSameDevice : Session :=
  { sessionId := 3, userId := "alice", deviceId := "devA",
    deviceInfo := exDeviceInfo, accessToken := exTok, refreshToken := exTok,
    isActive := false, expiresAt := 10, lastRefresh := 0, loggedOutAt := some 5 }

/-- Claim C10 witness: rename from session 1 on a store holding the active
caller row, a dead row of the same device, and a row of another device. -/
theorem C10_witness :
    (updateDeviceName [exActiveSession, exDeadSameDevice, exOtherDeviceSession]
        1 "My Phone").1 = some ()
    ∧ (updateDeviceName [exActiveSession, exDeadSameDevice, exOtherDeviceSession]
        1 "My Phone").2.length
      = ([exActiveSession, exDeadSameDevice, exOtherDeviceSession] : Store).length :=
  ⟨(C10_theorem [exActiveSession, exDeadSameDevice, exOtherDeviceSession] 1 "My Phone"
      exActiveSession (by decide) (by decide)).1,
   (C10_theorem [exActiveSession, exDeadSameDevice, exOtherDeviceSession] 1 "My Phone"
      exActiveSession (by decide) (by decide)).2.1⟩

/-! ## Claim C1: sequential logins from the same device reuse the session -/

/-- First-match tracking through a row-wise update: if the first `p₁`-match
in `store` is `existing`, `g` preserves ids, `g existing` satisfies `p₂`,
and every row failing `p₁` whose image satisfies `p₂` already carries
`existing`'s id, then the first `p₂`-match of the mapped store carries
`existing`'s id. -/
theorem find?_map_after_update {g : Session → Session} {p₁ p₂ : Session → Bool} :
    ∀ (store : Store) (existing : Session),
      store.find? p₁ = some existing →
      p₂ (g existing) = true →
      (∀ s, (g s).sessionId = s.sessionId) →
      (∀ s ∈ store, p₁ s = false → p₂ (g s) = true → s.sessionId = existing.sessionId) →
      ∃ e2, (store.map g).find? p₂ = some e2 ∧ e2.sessionId = existing.sessionId
  | [], existing, hfind, _, _, _ => by simp at hfind
  | a :: l, existing, hfind, hp2, hg, hrows => by
      by_cases ha : p₁ a = true
      · rw [List.find?_cons_of_pos _ ha] at hfind
        have hae : a = existing := Option.some.inj hfind
        subst hae
        refine ⟨g a, ?_, hg a⟩
        rw [List.map_cons, List.find?_cons_of_pos _ hp2]
      · have ha' : p₁ a = false := by simpa using ha
        rw [List.find?_cons_of_neg _ ha] at hfind
        by_cases hb : p₂ (g a) = true
        · refine ⟨g a, ?_, ?_⟩
          · rw [List.map_cons, List.find?_cons_of_pos _ hb]
          · rw [hg a]
            exact hrows a (List.mem_cons_self a l) ha' hb
        · obtain ⟨e2, he2, hid⟩ := find?_map_after_update l existing hfind hp2 hg
            (fun s hs => hrows s (List.mem_cons_of_mem a hs))
          exact ⟨e2, by rw [List.map_cons, List.find?_cons_of_neg _ hb]; exact he2, hid⟩

/-- The reuse-lookup predicate at a later time and for the same device only
shrinks: a row matching at `now2 ≥ now1` already matched at `now1`. -/
theorem loginPred_mono {userId dev1 dev2 : String} {now1 now2 : Nat}
    (hdev : dev2 = dev1) (h12 : now1 ≤ now2) (s : Session)
    (h : loginPred userId dev2 now2 s = true) :
    loginPred userId dev1 now1 s = true := by
  simp only [loginPred, Bool.and_eq_true, beq_iff_eq, decide_eq_true_eq] at h ⊢
  exact ⟨⟨⟨h.1.1.1, h.1.1.2.trans hdev⟩, h.1.2⟩, by omega⟩

/-- Rows updated in place by the reuse branch carry the refreshed expiry and
activity stamps. -/
theorem updateRow_reuse_fields {store : Store} {tid : Nat} {d : ResolvedDevice}
    {dn : Option String} {now : Nat} :
    ∀ s' ∈ updateRow store tid (loginReuseUpdate d dn now), s'.sessionId = tid →
      s'.expiresAt = now + SESSION_TTL ∧ s'.deviceInfo.lastActive = now := by
  intro s' hs' hsid
  rcases List.mem_map.mp hs' with ⟨s, hs, rfl⟩
  simp only [updateRowFn] at hsid ⊢
  revert hsid
  split
  · intro _; exact ⟨rfl, rfl⟩
  · intro hsid
    rename_i hcond
    exact absurd (by simpa using hsid) (by simpa using hcond)

/-- Claim C1: two sequential successful logins for the same user that
resolve to the same deviceId, the second within the first's extended
session TTL, return the same `sessionId` both times; the second login adds
no session row, and the row it returns has its `lastActive` and `expiresAt`
refreshed to the second login's time — it reuses and updates the existing
row instead of creating a new one. -/
theorem C1_theorem (accessSecret refreshSecret : String) (store : Store)
    (userId : String) (d1 d2 : ResolvedDevice) (n1 n2 : Option String)
    (now1 now2 : Nat) (hdev : d2.deviceId = d1.deviceId)
    (h12 : now1 ≤ now2) (hTTL : now2 < now1 + SESSION_TTL) :
    (secureLogin accessSecret refreshSecret
        (secureLogin accessSecret refreshSecret store userId d1 n1 now1).2
        userId d2 n2 now2).1.sessionId
      = (secureLogin accessSecret refreshSecret store userId d1 n1 now1).1.sessionId
    ∧ (secureLogin accessSecret refreshSecret
        (secureLogin accessSecret refreshSecret store userId d1 n1 now1).2
        userId d2 n2 now2).2.length
      = (secureLogin accessSecret refreshSecret store userId d1 n1 now1).2.length
    ∧ ∀ s' ∈ (secureLogin accessSecret refreshSecret
        (secureLogin accessSecret refreshSecret store userId d1 n1 now1).2
        userId d2 n2 now2).2,
        s'.sessionId
            = (secureLogin accessSecret refreshSecret store userId d1 n1 now1).1.sessionId →
          s'.expiresAt = now2 + SESSION_TTL ∧ s'.deviceInfo.lastActive = now2 := by
  cases hfa : findActiveByUserAndDevice store userId d1.deviceId now1 with
  | some existing =>
      have hfa' : store.find? (loginPred userId d1.deviceId now1) = some existing := hfa
      have hpx := List.find?_some hfa'
      simp only [loginPred, Bool.and_eq_true, beq_iff_eq, decide_eq_true_eq] at hpx
      have hp2 : loginPred userId d2.deviceId now2
          (updateRowFn existing.sessionId (loginReuseUpdate d1 n1 now1) existing) = true := by
        simp only [updateRowFn, beq_self_eq_true, if_true, loginPred, loginReuseUpdate,
          Bool.and_eq_true, beq_iff_eq, decide_eq_true_eq]
        exact ⟨⟨⟨hpx.1.1.1, hpx.1.1.2.trans hdev.symm⟩, hpx.1.2⟩, by omega⟩
      have hg : ∀ s : Session,
          (updateRowFn existing.sessionId (loginReuseUpdate d1 n1 now1) s).sessionId
            = s.sessionId := by
        intro s
        simp only [updateRowFn]
        split <;> rfl
      have hrows : ∀ s ∈ store, loginPred userId d1.deviceId now1 s = false →
          loginPred userId d2.deviceId now2
            (updateRowFn existing.sessionId (loginReuseUpdate d1 n1 now1) s) = true →
          s.sessionId = existing.sessionId := by
        intro s hs hfail hpass
        simp only [updateRowFn] at hpass
        revert hpass
        split
        · intro _
          rename_i hcond _
          exact beq_iff_eq.mp hcond
        · intro hpass
          exact absurd (loginPred_mono hdev h12 s hpass) (by simp [hfail])
      obtain ⟨e2, hfind2, hesid⟩ :=
        find?_map_after_update store existing hfa' hp2 hg hrows
      have hfind2' : findActiveByUserAndDevice
          (updateRow store existing.sessionId (loginReuseUpdate d1 n1 now1))
          userId d2.deviceId now2 = some e2 := hfind2
      have hr1 : secureLogin accessSecret refreshSecret store userId d1 n1 now1
          = ({ sessionId := existing.sessionId, deviceId := d1.deviceId,
               expiresAt := now1 + SESSION_TTL },
             updateRow store existing.sessionId (loginReuseUpdate d1 n1 now1)) := by
        simp only [secureLogin, hfa]
      have hr2 : secureLogin accessSecret refreshSecret
          (updateRow store existing.sessionId (loginReuseUpdate d1 n1 now1))
          userId d2 n2 now2
          = ({ sessionId := e2.sessionId, deviceId := d2.deviceId,
               expiresAt := now2 + SESSION_TTL },
             updateRow (updateRow store existing.sessionId (loginReuseUpdate d1 n1 now1))
               e2.sessionId (loginReuseUpdate d2 n2 now2)) := by
        simp only [secureLogin, hfind2']
      rw [hr1, hr2]
      refine ⟨hesid, by simp [updateRow], ?_⟩
      intro s' hs' hsid
      exact updateRow_reuse_fields s' hs' (hsid.trans hesid.symm)
  | none =>
      have hfa' : store.find? (loginPred userId d1.deviceId now1) = none := hfa
      have hall : ∀ s ∈ store, loginPred userId d1.deviceId now1 s = false := by
        intro s hs
        have := List.find?_eq_none.mp hfa' s hs
        simpa using this
      have hnew : loginPred userId d2.deviceId now2
          (newLoginSession accessSecret refreshSecret store userId d1 now1) = true := by
        simp [loginPred, newLoginSession, hdev, hTTL]
      have hsnone : store.find? (loginPred userId d2.deviceId now2) = none := by
        refine List.find?_eq_none.mpr (fun s hs => ?_)
        intro hp
        have := loginPred_mono hdev h12 s hp
        rw [hall s hs] at this
        exact Bool.false_ne_true this
      have hfind2' : findActiveByUserAndDevice
          (store ++ [newLoginSession accessSecret refreshSecret store userId d1 now1])
          userId d2.deviceId now2
          = some (newLoginSession accessSecret refreshSecret store userId d1 now1) := by
        show (store ++ [newLoginSession accessSecret refreshSecret store userId d1 now1]).find?
            (loginPred userId d2.deviceId now2) = _
        rw [List.find?_append, hsnone]
        simp only [Option.none_or]
        rw [List.find?_cons_of_pos _ hnew]
      have hr1 : secureLogin accessSecret refreshSecret store userId d1 n1 now1
          = ({ sessionId := freshSessionId store, deviceId := d1.deviceId,
               expiresAt := now1 + SESSION_TTL },
             store ++ [newLoginSession accessSecret refreshSecret store userId d1 now1]) := by
        simp only [secureLogin, hfa]
      have hr2 : secureLogin accessSecret refreshSecret
          (store ++ [newLoginSession accessSecret refreshSecret store userId d1 now1])
          userId d2 n2 now2
          = ({ sessionId := (newLoginSession accessSecret refreshSecret store userId d1 now1).sessionId,
               deviceId := d2.deviceId, expiresAt := now2 + SESSION_TTL },
             updateRow (store ++ [newLoginSession accessSecret refreshSecret store userId d1 now1])
               (newLoginSession accessSecret refreshSecret store userId d1 now1).sessionId
               (loginReuseUpdate d2 n2 now2)) := by
        simp only [secureLogin, hfind2']
      rw [hr1, hr2]
      refine ⟨rfl, by simp [updateRow], ?_⟩
      intro s' hs' hsid
      exact updateRow_reuse_fields s' hs' hsid

/-- A concrete resolved device for the login witness. -/
def exDevice : ResolvedDevice :=
  { deviceId := "devA", deviceName := "Phone", deviceType := "mobile",
    platform := "ios", browser := "Safari", os := "iOS",
    ipAddress := "10.0.0.1", userAgent := "UA", location := "",
    fingerprint := "fp" }

/-- Claim C1 witness: two logins from the same device 100ms apart, starting
from the empty store, return the same sessionId and the second adds no
row. -/
theorem C1_witness :
    (secureLogin "acc-secret" "ref-secret"
        (secureLogin "acc-secret" "ref-secret" [] "alice" exDevice (some "Phone") 100).2
        "alice" exDevice (some "Phone") 200).1.sessionId
      = (secureLogin "acc-secret" "ref-secret" [] "alice" exDevice
          (some "Phone") 100).1.sessionId
    ∧ (secureLogin "acc-secret" "ref-secret"
        (secureLogin "acc-secret" "ref-secret" [] "alice" exDevice (some "Phone") 100).2
        "alice" exDevice (some "Phone") 200).2.length
      = (secureLogin "acc-secret" "ref-secret" [] "alice" exDevice
          (some "Phone") 100).2.length := by
  have h := C1_theorem "acc-secret" "ref-secret" [] "alice" exDevice exDevice (some "Phone")
    (some "Phone") 100 200 rfl (by decide) (by decide)
  exact ⟨h.1, h.2.1⟩
